import Mathlib

/-!
# cdflow2-config-acuris: `PrepareTerraform`

A shallow embedding of `internal/handler/prepare_terraform.go`.

* Go strings are Lean `String`s; `strings.HasPrefix` and the slice
  `path[len(expectedPrefix):]` are taken on the character lists (the marker
  `.terraform/plugins/` is ASCII, so bytes and characters coincide).
* Go `map[string]string` is a function `String → Option String`; reading a
  missing key yields `""`.
* Go `error` values are `GoError`; `err != os.ErrNotExist` is identity with the
  sentinel constructor.
* The error stream and the sequence of I/O calls are carried in `St`.
* Methods, clients and constants of the handler that are declared elsewhere in
  the package are fields of `Handler`.
-/

set_option autoImplicit false
set_option maxRecDepth 100000

namespace CdflowAcuris

/-! ## Go runtime values -/

/-- Operating-system error numbers carried inside an `*os.PathError`. -/
inductive Errno where
  | ENOENT
  | EACCES
  | ENOTDIR
  deriving DecidableEq, Repr

/-- The text of `syscall.Errno.Error()`. -/
def Errno.Error : Errno → String
  | .ENOENT => "no such file or directory"
  | .EACCES => "permission denied"
  | .ENOTDIR => "not a directory"

/-- Go `error` values. `ErrNotExist` is the sentinel `os.ErrNotExist`;
`PathError` is a `*os.PathError`; `New` is an error made by `fmt.Errorf`,
`errors.New` or a collaborator, identified by its message. -/
inductive GoError where
  | ErrNotExist
  | PathError (Op : String) (Path : String) (Err : Errno)
  | New (msg : String)
  deriving DecidableEq, Repr

/-- The text of `err.Error()`. -/
def GoError.Error : GoError → String
  | .ErrNotExist => "file does not exist"
  | .PathError op path err => op ++ " " ++ path ++ ": " ++ err.Error
  | .New msg => msg

/-- Go `map[string]string`. -/
abbrev GoMap := String → Option String

/-- The empty map. -/
def GoMap.empty : GoMap := fun _ => none

/-- Reading `m[k]`: the zero value `""` when the key is absent. -/
def GoMap.get (m : GoMap) (k : String) : String := (m k).getD ""

/-- The assignment `m[k] = v`. -/
def GoMap.set (m : GoMap) (k v : String) : GoMap :=
  fun k' => if k' = k then some v else m k'

/-- Values of `map[string]interface{}` as decoded from `cdflow.yaml`. -/
inductive ConfigValue where
  | str (s : String)
  | int (n : Int)
  | bool (b : Bool)
  | list (xs : List String)
  deriving DecidableEq, Repr

/-- The type assertion `v.(string)` with the comma-ok form: value and `ok`. -/
def assertString : Option ConfigValue → String × Bool
  | some (.str s) => (s, true)
  | _ => ("", false)

/-- Go `strings.HasPrefix`. -/
def HasPrefix (s pre : String) : Bool := pre.data.isPrefixOf s.data

/-- Go slice expression `s[n:]`. -/
def sliceFrom (s : String) (n : Nat) : String := String.mk (s.data.drop n)

/-! ## Records of the plugin protocol and of the AWS SDK -/

/-- An `io.ReadCloser`, identified by where its bytes come from. -/
structure ReadCloser where
  source : String
  deriving DecidableEq, Repr

/-- An AWS `*session.Session`. -/
structure Session where
  tag : String
  deriving DecidableEq, Repr

/-- The `credentials.Value` returned by `Credentials.Get`. -/
structure CredentialsValue where
  AccessKeyID : String
  SecretAccessKey : String
  SessionToken : String
  deriving DecidableEq, Repr

/-- A `*credentials.Credentials` object, given by what its `Get` returns. -/
structure Credentials where
  Get : Except GoError CredentialsValue

/-- An `organizations.Account` (its `Name` and `Id`, both populated). -/
structure Account where
  Name : String
  Id : String
  deriving DecidableEq, Repr

/-- One page of `organizations.ListAccountsOutput`. -/
structure ListAccountsOutput where
  Accounts : List Account
  deriving DecidableEq, Repr

/-- An `sts.AssumeRoleInput`. -/
structure AssumeRoleInput where
  RoleArn : String
  RoleSessionName : String
  deriving DecidableEq, Repr

/-- The `Credentials` of an `sts.AssumeRoleOutput`. -/
structure STSCredentials where
  AccessKeyId : String
  SecretAccessKey : String
  SessionToken : String
  deriving DecidableEq, Repr

/-- A `common.PrepareTerraformRequest`. -/
structure PrepareTerraformRequest where
  Version : String
  Component : String
  EnvName : String
  Config : String → Option ConfigValue
  Env : GoMap

/-- A `common.PrepareTerraformResponse`. -/
structure PrepareTerraformResponse where
  Success : Bool
  TerraformImage : String
  Env : GoMap
  TerraformBackendType : String
  TerraformBackendConfig : GoMap

/-! ## Effects -/

/-- Calls that leave the process, in the order they are made. -/
inductive Event where
  | InitReleaseAccountCredentials (team : String)
  | ReleaseAccountCredentialsGet
  | createReleaseAccountSession
  | S3GetObject (Bucket : String) (Key : String)
  | GetRootAccountSession
  | ListAccounts
  | AssumeRole (input : AssumeRoleInput)
  | Open (name : String)
  deriving DecidableEq, Repr

/-- What an invocation has written to `h.ErrorStream` and which calls it made. -/
structure St where
  ErrorStream : String
  calls : List Event
  deriving DecidableEq, Repr

/-- Appends text to the error stream (`fmt.Fprintf`). -/
def St.Fprintf (s : St) (text : String) : St :=
  { s with ErrorStream := s.ErrorStream ++ text }

/-- Writes an error and a newline to the error stream (`fmt.Fprintln`). -/
def St.Fprintln (s : St) (err : GoError) : St :=
  s.Fprintf (err.Error ++ "\n")

/-- Records a call. -/
def St.call (s : St) (e : Event) : St :=
  { s with calls := s.calls ++ [e] }

/-- The callback type `func(path, checksum string) (io.ReadCloser, error)`. -/
abbrev ResolvePlugin := String → String → St → Except GoError ReadCloser × St

/-- The handler: the collaborators `prepare_terraform.go` calls and the package
constants it reads, all declared outside this file.
`quote` is the `%q` verb of `fmt`; `fs` is the local file system as seen by
`os.Open`; `ListAccounts` is the sequence of page requests the organizations
API answers for a session. -/
structure Handler where
  Region : String
  TFStateBucket : String
  ReleaseBucket : String
  quote : String → String
  getTeam : Option ConfigValue → Except GoError String
  InitReleaseAccountCredentials : GoMap → String → Except GoError Credentials
  createReleaseAccountSession : Credentials → Except GoError Session
  releaseS3Key : String → String → String → String
  savedPluginKey : String → String → String → String
  S3GetObject : Session → String → String → Except GoError ReadCloser
  GetRootAccountSession : GoMap → Except GoError Session
  ListAccounts : Session → List (Except GoError ListAccountsOutput)
  GetRoleSessionName : GoMap → Except GoError String
  AssumeRole : Session → AssumeRoleInput → Except GoError STSCredentials
  fs : String → Except Errno ReadCloser
  Load : ReadCloser → String → String → String → ResolvePlugin → St →
    Except GoError String × St

/-- Go `os.Open`: a failure is always reported as a `*os.PathError`. -/
def osOpen (fs : String → Except Errno ReadCloser) (name : String) (s : St) :
    Except GoError ReadCloser × St :=
  match fs name with
  | .ok reader => (.ok reader, s.call (.Open name))
  | .error errno => (.error (.PathError "open" name errno), s.call (.Open name))

/-- The S3 client's `GetObject`, recorded as a call. -/
def Handler.s3ClientGetObject (h : Handler) (session : Session) (Bucket Key : String)
    (s : St) : Except GoError ReadCloser × St :=
  (h.S3GetObject session Bucket Key, s.call (.S3GetObject Bucket Key))

/-! ## The plugin-resolution callback (lines 78-99) -/

/-- The literal `expectedPrefix`. -/
def expectedPrefix : String := ".terraform/plugins/"

/-- The function literal passed to `ReleaseLoader.Load`; `session` is the
session behind the captured `s3Client`, `team` the captured team. -/
def Handler.resolvePlugin (h : Handler) (session : Session) (team : String) :
    ResolvePlugin := fun path checksum s =>
  if !HasPrefix path expectedPrefix then
    (.error (.New ("expected path " ++ h.quote path ++ " to start with " ++
      h.quote expectedPrefix)), s)
  else
    let name := sliceFrom path expectedPrefix.length
    match osOpen h.fs ("/cache/terraform-plugin-cache/" ++ name) s with
    | (.ok reader, s1) => (.ok reader, s1)
    | (.error err, s1) =>
      if err ≠ GoError.ErrNotExist then
        (.error err, s1)
      else
        let s2 := s1.Fprintf ("- Downloading provider plugin " ++ name ++ "...\n")
        match h.s3ClientGetObject session h.ReleaseBucket
            (h.savedPluginKey team path checksum) s2 with
        | (.error err, s3) => (.error err, s3)
        | (.ok body, s3) => (.ok body, s3)

/-! ## Deploy-account credentials (lines 109-186) -/

/-- Lines 109-118. -/
def Handler.addRootAccountCredentials (h : Handler) (requestEnv : GoMap)
    (responseEnv : GoMap) : Option GoError × GoMap :=
  if requestEnv.get "AWS_ACCESS_KEY_ID" = "" ∨ requestEnv.get "AWS_SECRET_ACCESS_KEY" = "" then
    (some (.New "AWS_ACCESS_KEY_ID or AWS_SECRET_ACCESS_KEY not found in env"), responseEnv)
  else
    let responseEnv := responseEnv.set "AWS_ACCESS_KEY_ID" (requestEnv.get "AWS_ACCESS_KEY_ID")
    let responseEnv :=
      responseEnv.set "AWS_SECRET_ACCESS_KEY" (requestEnv.get "AWS_SECRET_ACCESS_KEY")
    let responseEnv := responseEnv.set "AWS_SESSION_TOKEN" (requestEnv.get "AWS_SESSION_TOKEN")
    let responseEnv := responseEnv.set "AWS_DEFAULT_REGION" h.Region
    (none, responseEnv)

/-- The SDK paginator `ListAccountsPages`: requests one page after another,
hands each to `fn` together with the last-page flag, stops when `fn` returns
`false` or the pages are exhausted, and returns the error of a failed page
request. `acc` is the state the callback closes over. -/
def ListAccountsPages {σ : Type} (fn : σ → ListAccountsOutput → Bool → σ × Bool) :
    List (Except GoError ListAccountsOutput) → σ → St → (σ × Option GoError) × St
  | [], acc, s => ((acc, none), s)
  | .error err :: _, acc, s => ((acc, some err), s.call .ListAccounts)
  | .ok result :: rest, acc, s =>
    match fn acc result rest.isEmpty with
    | (acc1, true) => ListAccountsPages fn rest acc1 (s.call .ListAccounts)
    | (acc1, false) => ((acc1, none), s.call .ListAccounts)

/-- The loop of lines 151-157 over `result.Accounts`: the new value of
`accountID` and the callback's return value. -/
def scanAccounts (accountName : String) : List Account → String → String × Bool
  | [], accountID => (accountID, true)
  | account :: rest, accountID =>
    if account.Name = accountName then (account.Id, false)
    else scanAccounts accountName rest accountID

/-- The page callback of lines 150-158; the captured variable `accountID` is
its state. -/
def accountsCallback (accountName : String) (accountID : String)
    (result : ListAccountsOutput) (_lastPage : Bool) : String × Bool :=
  scanAccounts accountName result.Accounts accountID

/-- The account name of lines 130-135. -/
def deployAccountName (accountPrefix : String) (EnvName : String) : String :=
  if EnvName = "live" then accountPrefix ++ "prod" else accountPrefix ++ "dev"

/-- `AddDeployAccountCredentialsValue` (lines 121-186): the returned error, the
response environment after the call, and the effects. -/
def Handler.AddDeployAccountCredentialsValue (h : Handler) (request : PrepareTerraformRequest)
    (team : String) (responseEnv : GoMap) (s : St) : (Option GoError × GoMap) × St :=
  match assertString (request.Config "account_prefix") with
  | (accountPrefix, ok) =>
  if !ok || accountPrefix = "" then
    ((some (.New ("cdflow.yaml: error - config.params.account_prefix must be set " ++
      "and be a string value")), responseEnv), s)
  else if accountPrefix = "-" then
    (h.addRootAccountCredentials request.Env responseEnv, s)
  else
    let accountName := deployAccountName accountPrefix request.EnvName
    let role := team ++ "-deploy"
    let s := s.Fprintf ("- Assuming " ++ h.quote role ++ " role in " ++ h.quote accountName ++
      " account...\n")
    match h.GetRootAccountSession request.Env with
    | .error err => ((some err, responseEnv), s.call .GetRootAccountSession)
    | .ok session =>
    let s := s.call .GetRootAccountSession
    match ListAccountsPages (accountsCallback accountName) (h.ListAccounts session) "" s with
    | ((_, some err), s) => ((some err, responseEnv), s)
    | ((accountID, none), s) =>
    if accountID = "" then
      ((some (.New ("account " ++ h.quote accountName ++ " not found")), responseEnv), s)
    else
      match h.GetRoleSessionName request.Env with
      | .error err => ((some err, responseEnv), s)
      | .ok roleSessionName =>
      let input : AssumeRoleInput :=
        { RoleArn := "arn:aws:iam::" ++ accountID ++ ":role/" ++ role,
          RoleSessionName := roleSessionName }
      match h.AssumeRole session input with
      | .error err => ((some err, responseEnv), s.call (.AssumeRole input))
      | .ok result =>
        let s := s.call (.AssumeRole input)
        let responseEnv := responseEnv.set "AWS_ACCESS_KEY_ID" result.AccessKeyId
        let responseEnv := responseEnv.set "AWS_SECRET_ACCESS_KEY" result.SecretAccessKey
        let responseEnv := responseEnv.set "AWS_SESSION_TOKEN" result.SessionToken
        let responseEnv := responseEnv.set "AWS_DEFAULT_REGION" h.Region
        ((none, responseEnv), s)

/-! ## `PrepareTerraform` (lines 17-107) -/

/-- `PrepareTerraform`: the returned error, the response after the call, and
the effects. -/
def Handler.PrepareTerraform (h : Handler) (request : PrepareTerraformRequest)
    (response : PrepareTerraformResponse) (releaseDir : String) (s : St) :
    (Option GoError × PrepareTerraformResponse) × St :=
  match h.getTeam (request.Config "team") with
  | .error err => ((none, { response with Success := false }), s.Fprintln err)
  | .ok team =>
  match h.InitReleaseAccountCredentials request.Env team with
  | .error err =>
    ((none, { response with Success := false }),
      (s.call (.InitReleaseAccountCredentials team)).Fprintln err)
  | .ok creds =>
  let s := s.call (.InitReleaseAccountCredentials team)
  match creds.Get with
  | .error err =>
    ((none, { response with Success := false }),
      (s.call .ReleaseAccountCredentialsGet).Fprintln err)
  | .ok releaseAccountCredentialsValue =>
  let s := s.call .ReleaseAccountCredentialsGet
  let cfg := response.TerraformBackendConfig
  let cfg := cfg.set "access_key" releaseAccountCredentialsValue.AccessKeyID
  let cfg := cfg.set "secret_key" releaseAccountCredentialsValue.SecretAccessKey
  let cfg := cfg.set "token" releaseAccountCredentialsValue.SessionToken
  let cfg := cfg.set "region" h.Region
  let cfg := cfg.set "bucket" h.TFStateBucket
  let cfg := cfg.set "workspace_key_prefix" (team ++ "/" ++ request.Component)
  let cfg := cfg.set "key" "terraform.tfstate"
  let cfg := cfg.set "dynamodb_table" (team ++ "-tflocks")
  let response :=
    { response with TerraformBackendType := "s3", TerraformBackendConfig := cfg }
  match h.createReleaseAccountSession creds with
  | .error err =>
    ((some (.New ("unable to create AWS session in release account: " ++ err.Error)),
      response), s.call .createReleaseAccountSession)
  | .ok session =>
  let s := s.call .createReleaseAccountSession
  let key := h.releaseS3Key team request.Component request.Version
  let s := s.Fprintf ("- Downloading release from s3://" ++ h.ReleaseBucket ++ "/" ++ key ++
    "...\n")
  match h.s3ClientGetObject session h.ReleaseBucket key s with
  | (.error err, s) => ((none, { response with Success := false }), s.Fprintln err)
  | (.ok getObjectOutputBody, s) =>
  let s := s.Fprintf ("- Assuming \"" ++ team ++ "-deploy\" role in \"acurisrelease\" " ++
    "account...\n")
  match h.AddDeployAccountCredentialsValue request team response.Env s with
  | ((some err, responseEnv), s) =>
    ((none, { response with Success := false, Env := responseEnv }), s.Fprintln err)
  | ((none, responseEnv), s) =>
  let response := { response with Env := responseEnv }
  match h.Load getObjectOutputBody request.Component request.Version releaseDir
      (h.resolvePlugin session team) s with
  | (.error err, s) => ((some err, response), s)
  | (.ok terraformImage, s) =>
    ((none, { response with TerraformImage := terraformImage }), s)

/-- The state in which `AddDeployAccountCredentialsValue` starts listing
accounts: the progress line is written and the root session has been created. -/
def St.beforeListing (s : St) (h : Handler) (team accountName : String) : St :=
  (s.Fprintf ("- Assuming " ++ h.quote (team ++ "-deploy") ++ " role in " ++
    h.quote accountName ++ " account...\n")).call .GetRootAccountSession

/-- The state in which `PrepareTerraform` calls
`AddDeployAccountCredentialsValue`: the release-account credentials, the
release-account session and the release object have been obtained and both
progress lines are written. -/
def St.beforeDeploy (s : St) (h : Handler) (team : String)
    (request : PrepareTerraformRequest) : St :=
  ((((((s.call (.InitReleaseAccountCredentials team)).call
    .ReleaseAccountCredentialsGet).call .createReleaseAccountSession).Fprintf
    ("- Downloading release from s3://" ++ h.ReleaseBucket ++ "/" ++
      h.releaseS3Key team request.Component request.Version ++ "...\n")).call
    (.S3GetObject h.ReleaseBucket
      (h.releaseS3Key team request.Component request.Version))).Fprintf
    ("- Assuming \"" ++ team ++ "-deploy\" role in \"acurisrelease\" " ++ "account...\n"))

/-- The backend configuration written at lines 39-46 into `cfg`. -/
def backendConfig (h : Handler) (cfg : GoMap) (value : CredentialsValue)
    (team component : String) : GoMap :=
  ((((((((cfg.set "access_key" value.AccessKeyID).set "secret_key" value.SecretAccessKey).set
    "token" value.SessionToken).set "region" h.Region).set "bucket" h.TFStateBucket).set
    "workspace_key_prefix" (team ++ "/" ++ component)).set "key" "terraform.tfstate").set
    "dynamodb_table" (team ++ "-tflocks"))

/-! ## A sample handler

All collaborators succeed; the plugin cache is empty; the organizations
listing has two pages. -/

/-- Sample `%q`: wraps in double quotes (exact for text without quotes,
backslashes or non-printable characters). -/
def sampleQuote (text : String) : String := "\"" ++ text ++ "\""

/-- Sample `getTeam`: accepts any non-empty string. -/
def sampleGetTeam : Option ConfigValue → Except GoError String
  | some (.str team) =>
    if team = "" then .error (.New "cdflow.yaml: error - config.params.team must be set")
    else .ok team
  | _ => .error (.New "cdflow.yaml: error - config.params.team must be set")

/-- Sample handler. -/
def sampleHandler : Handler where
  Region := "eu-west-1"
  TFStateBucket := "acuris-tfstate"
  ReleaseBucket := "acuris-releases"
  quote := sampleQuote
  getTeam := sampleGetTeam
  InitReleaseAccountCredentials := fun _ _ => .ok ⟨.ok ⟨"ASIARELEASE", "release-secret", "release-token"⟩⟩
  createReleaseAccountSession := fun _ => .ok ⟨"release"⟩
  releaseS3Key := fun team component version =>
    team ++ "/" ++ component ++ "/" ++ component ++ "-" ++ version ++ ".zip"
  savedPluginKey := fun team path checksum => team ++ "/_plugins/" ++ path ++ "/" ++ checksum
  S3GetObject := fun _ Bucket Key => .ok ⟨"s3://" ++ Bucket ++ "/" ++ Key⟩
  GetRootAccountSession := fun _ => .ok ⟨"root"⟩
  ListAccounts := fun _ =>
    [.ok ⟨[⟨"acmeprod", "111111111111"⟩, ⟨"otherdev", "333333333333"⟩]⟩,
     .ok ⟨[⟨"acmedev", "222222222222"⟩, ⟨"acmedev", "444444444444"⟩]⟩,
     .ok ⟨[⟨"lastdev", "555555555555"⟩]⟩]
  GetRoleSessionName := fun _ => .ok "user@example.com"
  AssumeRole := fun _ _ => .ok ⟨"ASIADEPLOY", "deploy-secret", "deploy-token"⟩
  fs := fun _ => .error .ENOENT
  Load := fun _ _ _ _ _ s => (.ok "hashicorp/terraform:light", s)

/-- Sample request: team `acme`, account prefix `acme`, environment `aslive`. -/
def sampleRequest : PrepareTerraformRequest where
  Version := "1"
  Component := "web"
  EnvName := "aslive"
  Config := fun k =>
    if k = "team" then some (.str "acme")
    else if k = "account_prefix" then some (.str "acme")
    else none
  Env := fun k =>
    if k = "AWS_ACCESS_KEY_ID" then some "AKIAROOT"
    else if k = "AWS_SECRET_ACCESS_KEY" then some "root-secret"
    else none

/-- Sample response as created by the caller: success, nothing filled in. -/
def sampleResponse : PrepareTerraformResponse where
  Success := true
  TerraformImage := ""
  Env := GoMap.empty
  TerraformBackendType := ""
  TerraformBackendConfig := GoMap.empty

/-- The sample handler with a delegation call that is rejected. -/
def rejectedAssumeRoleHandler : Handler :=
  { sampleHandler with AssumeRole := fun _ _ => .error (.New "test-error-text") }

/-- The sample handler with a release-account session that cannot be created. -/
def noReleaseSessionHandler : Handler :=
  { sampleHandler with createReleaseAccountSession := fun _ => .error (.New "missing region") }

/-- The sample handler with a release loader that fails. -/
def failingLoadHandler : Handler :=
  { sampleHandler with Load := fun _ _ _ _ _ s => (.error (.New "not a zip archive"), s) }

/-- The sample request without `account_prefix`. -/
def requestWithoutAccountPrefix : PrepareTerraformRequest :=
  { sampleRequest with Config := fun k => if k = "team" then some (.str "acme") else none }

/-- The sample request with the sentinel account prefix `-`. -/
def requestWithSentinel : PrepareTerraformRequest :=
  { sampleRequest with
    Config := fun k =>
      if k = "team" then some (.str "acme")
      else if k = "account_prefix" then some (.str "-")
      else none }

/-- The sample request without `team`. -/
def requestWithoutTeam : PrepareTerraformRequest :=
  { sampleRequest with Config := fun _ => none }

/-- Nothing written, no call made. -/
def St.init : St := ⟨"", []⟩

/-! ## Helper lemmas -/

theorem HasPrefix_append (pre rest : String) : HasPrefix (pre ++ rest) pre = true := by
  unfold HasPrefix
  rw [String.data_append, List.isPrefixOf_iff_prefix]
  exact List.prefix_append _ _

theorem sliceFrom_append (pre rest : String) : sliceFrom (pre ++ rest) pre.length = rest := by
  unfold sliceFrom
  rw [String.data_append]
  show String.mk (List.drop pre.data.length (pre.data ++ rest.data)) = rest
  rw [List.drop_left]

theorem scanAccounts_no_match (accountName : String) (accounts : List Account)
    (accountID : String) (hno : ∀ x ∈ accounts, x.Name ≠ accountName) :
    scanAccounts accountName accounts accountID = (accountID, true) := by
  induction accounts with
  | nil => rfl
  | cons x rest ih =>
    have hx : x.Name ≠ accountName := hno x (List.mem_cons_self _ _)
    have hrest : ∀ y ∈ rest, y.Name ≠ accountName :=
      fun y hy => hno y (List.mem_cons_of_mem _ hy)
    simp [scanAccounts, hx, ih hrest]

theorem scanAccounts_first_match (accountName : String) (before : List Account)
    (account : Account) (after : List Account) (accountID : String)
    (hno : ∀ x ∈ before, x.Name ≠ accountName) (hname : account.Name = accountName) :
    scanAccounts accountName (before ++ account :: after) accountID = (account.Id, false) := by
  induction before with
  | nil => simp [scanAccounts, hname]
  | cons x rest ih =>
    have hx : x.Name ≠ accountName := hno x (List.mem_cons_self _ _)
    have hrest : ∀ y ∈ rest, y.Name ≠ accountName :=
      fun y hy => hno y (List.mem_cons_of_mem _ hy)
    simp [scanAccounts, hx, ih hrest]

/-- Pages without a match are each requested once and leave `accountID` as it was. -/
theorem ListAccountsPages_skip (accountName : String) (pre : List ListAccountsOutput)
    (rest : List (Except GoError ListAccountsOutput)) (accountID : String) (s : St)
    (hno : ∀ page ∈ pre, ∀ x ∈ page.Accounts, x.Name ≠ accountName) :
    ListAccountsPages (accountsCallback accountName) (pre.map Except.ok ++ rest) accountID s
      = ListAccountsPages (accountsCallback accountName) rest accountID
          { ErrorStream := s.ErrorStream,
            calls := s.calls ++ List.replicate pre.length Event.ListAccounts } := by
  induction pre generalizing s with
  | nil => simp
  | cons page pages ih =>
    have hpage : ∀ x ∈ page.Accounts, x.Name ≠ accountName := hno page (List.mem_cons_self _ _)
    have hpages : ∀ q ∈ pages, ∀ x ∈ q.Accounts, x.Name ≠ accountName :=
      fun q hq => hno q (List.mem_cons_of_mem _ hq)
    simp only [List.map_cons, List.cons_append, ListAccountsPages, accountsCallback,
      scanAccounts_no_match accountName page.Accounts accountID hpage]
    have hrec := ih (s.call .ListAccounts) hpages
    show ListAccountsPages (accountsCallback accountName) (pages.map Except.ok ++ rest)
      accountID (s.call .ListAccounts) = _
    rw [hrec]
    simp [St.call, List.replicate_succ]

/-- The paginator writes nothing and makes only page requests, at most one per page. -/
theorem ListAccountsPages_effects {σ : Type} (fn : σ → ListAccountsOutput → Bool → σ × Bool)
    (pages : List (Except GoError ListAccountsOutput)) (acc : σ) (s : St) :
    ∃ k, k ≤ pages.length ∧
      (ListAccountsPages fn pages acc s).2
        = { ErrorStream := s.ErrorStream,
            calls := s.calls ++ List.replicate k Event.ListAccounts } := by
  induction pages generalizing acc s with
  | nil => exact ⟨0, Nat.le_refl _, by simp [ListAccountsPages]⟩
  | cons page rest ih =>
    cases page with
    | error err => exact ⟨1, by simp, by simp [ListAccountsPages, St.call]⟩
    | ok result =>
      rcases hfn : fn acc result rest.isEmpty with ⟨acc1, cont⟩
      cases cont with
      | false => exact ⟨1, by simp, by simp [ListAccountsPages, hfn, St.call]⟩
      | true =>
        obtain ⟨k, hk, hs⟩ := ih acc1 (s.call .ListAccounts)
        refine ⟨k + 1, by simpa using hk, ?_⟩
        simp only [ListAccountsPages, hfn]
        rw [hs]
        simp [St.call, List.replicate_succ]

theorem AddDeploy_listing_error (h : Handler) (request : PrepareTerraformRequest)
    (team : String) (responseEnv : GoMap) (s s2 : St) (p accountID : String) (session : Session)
    (err : GoError)
    (hcfg : request.Config "account_prefix" = some (.str p)) (hp : p ≠ "") (hp' : p ≠ "-")
    (hsess : h.GetRootAccountSession request.Env = .ok session)
    (hlist : ListAccountsPages (accountsCallback (deployAccountName p request.EnvName))
      (h.ListAccounts session) ""
      (s.beforeListing h team (deployAccountName p request.EnvName))
        = ((accountID, some err), s2)) :
    h.AddDeployAccountCredentialsValue request team responseEnv s
      = ((some err, responseEnv), s2) := by
  unfold St.beforeListing at hlist
  simp [Handler.AddDeployAccountCredentialsValue, assertString, hcfg, hp, hp', hsess, hlist]

theorem AddDeploy_not_found (h : Handler) (request : PrepareTerraformRequest)
    (team : String) (responseEnv : GoMap) (s s2 : St) (p : String) (session : Session)
    (hcfg : request.Config "account_prefix" = some (.str p)) (hp : p ≠ "") (hp' : p ≠ "-")
    (hsess : h.GetRootAccountSession request.Env = .ok session)
    (hlist : ListAccountsPages (accountsCallback (deployAccountName p request.EnvName))
      (h.ListAccounts session) ""
      (s.beforeListing h team (deployAccountName p request.EnvName))
        = (("", none), s2)) :
    h.AddDeployAccountCredentialsValue request team responseEnv s
      = ((some (.New ("account " ++ h.quote (deployAccountName p request.EnvName) ++
          " not found")), responseEnv), s2) := by
  unfold St.beforeListing at hlist
  simp [Handler.AddDeployAccountCredentialsValue, assertString, hcfg, hp, hp', hsess, hlist]

theorem AddDeploy_found (h : Handler) (request : PrepareTerraformRequest)
    (team : String) (responseEnv : GoMap) (s s2 : St) (p accountID roleSessionName : String)
    (session : Session)
    (hcfg : request.Config "account_prefix" = some (.str p)) (hp : p ≠ "") (hp' : p ≠ "-")
    (hsess : h.GetRootAccountSession request.Env = .ok session)
    (hlist : ListAccountsPages (accountsCallback (deployAccountName p request.EnvName))
      (h.ListAccounts session) ""
      (s.beforeListing h team (deployAccountName p request.EnvName))
        = ((accountID, none), s2))
    (hid : accountID ≠ "")
    (hname : h.GetRoleSessionName request.Env = .ok roleSessionName) :
    h.AddDeployAccountCredentialsValue request team responseEnv s
      = match h.AssumeRole session ⟨"arn:aws:iam::" ++ accountID ++ ":role/" ++ (team ++ "-deploy"), roleSessionName⟩ with
        | .error err =>
          ((some err, responseEnv),
            s2.call (.AssumeRole ⟨"arn:aws:iam::" ++ accountID ++ ":role/" ++ (team ++ "-deploy"), roleSessionName⟩))
        | .ok result =>
          ((none, (((responseEnv.set "AWS_ACCESS_KEY_ID" result.AccessKeyId).set
              "AWS_SECRET_ACCESS_KEY" result.SecretAccessKey).set
              "AWS_SESSION_TOKEN" result.SessionToken).set "AWS_DEFAULT_REGION" h.Region),
            s2.call (.AssumeRole ⟨"arn:aws:iam::" ++ accountID ++ ":role/" ++ (team ++ "-deploy"), roleSessionName⟩)) := by
  unfold St.beforeListing at hlist
  simp only [Handler.AddDeployAccountCredentialsValue, assertString, hcfg, hsess, hlist, hname]
  simp only [hp, hp', hid, Bool.not_true, Bool.false_or, decide_False, ite_false,
    Bool.false_eq_true, if_false]

/-! ## The plugin-resolution callback -/

/-- C1: with an empty plugin cache (every `os.Open` fails with ENOENT), for
every plugin name, team, checksum and captured session, the callback applied
to `.terraform/plugins/` + name returns the `*os.PathError` of the failed open
and the only call it makes is that `os.Open`: no S3 `GetObject` is issued and
nothing is written to the error stream. -/
theorem resolvePlugin_missing_file_returns_open_error (h : Handler) (session : Session)
    (team name checksum : String) (s : St) :
    Handler.resolvePlugin { h with fs := fun _ => .error .ENOENT } session team
        (expectedPrefix ++ name) checksum s
      = (.error (.PathError "open" ("/cache/terraform-plugin-cache/" ++ name) .ENOENT),
          { ErrorStream := s.ErrorStream,
            calls := s.calls ++ [.Open ("/cache/terraform-plugin-cache/" ++ name)] }) := by
  simp [Handler.resolvePlugin, HasPrefix_append, sliceFrom_append, osOpen, St.call]

/-- C2: for every path that does not start with `.terraform/plugins/` and
every checksum, the callback returns the error
`expected path <%q of path> to start with <%q of ".terraform/plugins/">` and
leaves the effects untouched: no file is opened, no S3 `GetObject` is issued,
nothing is written. -/
theorem resolvePlugin_rejects_unexpected_path (h : Handler) (session : Session)
    (team path checksum : String) (s : St)
    (hpath : HasPrefix path ".terraform/plugins/" = false) :
    h.resolvePlugin session team path checksum s
      = (.error (.New ("expected path " ++ h.quote path ++ " to start with " ++
          h.quote ".terraform/plugins/")), s) := by
  simp [Handler.resolvePlugin, expectedPrefix, hpath]

/-- C2 at the path `plugins/terraform-provider-aws` of the sample handler: the
message is spelled out. -/
theorem resolvePlugin_rejects_unexpected_path_witness :
    HasPrefix "plugins/terraform-provider-aws" ".terraform/plugins/" = false ∧
    sampleHandler.resolvePlugin ⟨"release"⟩ "acme" "plugins/terraform-provider-aws" "c0ffee" St.init
      = (.error (.New ("expected path " ++ sampleHandler.quote "plugins/terraform-provider-aws" ++
          " to start with " ++ sampleHandler.quote ".terraform/plugins/")), St.init) :=
  ⟨by decide, resolvePlugin_rejects_unexpected_path sampleHandler ⟨"release"⟩ "acme"
    "plugins/terraform-provider-aws" "c0ffee" St.init (by decide)⟩

/-! ## Deploy-account credentials -/

/-- C5: for every account prefix other than `""` and `"-"` and every
environment name, the account name is prefix + `prod` exactly when the
environment name is `live` and prefix + `dev` otherwise (so also for the empty
name and for `Live` and `LIVE`); it is the name the account listing is scanned
for: when that scan finds nothing, the call fails with `account <%q of that
name> not found`. -/
theorem deploy_account_name_by_environment (h : Handler) (request : PrepareTerraformRequest)
    (team : String) (responseEnv : GoMap) (s : St) (p : String) (session : Session)
    (hcfg : request.Config "account_prefix" = some (.str p)) (hp : p ≠ "") (hp' : p ≠ "-")
    (hsess : h.GetRootAccountSession request.Env = .ok session) :
    (deployAccountName p request.EnvName = p ++ "prod" ↔ request.EnvName = "live") ∧
    (request.EnvName ≠ "live" → deployAccountName p request.EnvName = p ++ "dev") ∧
    (deployAccountName p "" = p ++ "dev" ∧ deployAccountName p "Live" = p ++ "dev" ∧
      deployAccountName p "LIVE" = p ++ "dev") ∧
    (∀ s2, ListAccountsPages
        (accountsCallback (if request.EnvName = "live" then p ++ "prod" else p ++ "dev"))
        (h.ListAccounts session) ""
        (s.beforeListing h team (if request.EnvName = "live" then p ++ "prod" else p ++ "dev"))
          = (("", none), s2) →
      h.AddDeployAccountCredentialsValue request team responseEnv s
        = ((some (.New ("account " ++
            h.quote (if request.EnvName = "live" then p ++ "prod" else p ++ "dev") ++
            " not found")), responseEnv), s2)) := by
  have hne : p ++ "dev" ≠ p ++ "prod" := by
    intro heq
    have hdata := congrArg String.data heq
    simp at hdata
  refine ⟨?_, ?_, ⟨?_, ?_, ?_⟩, ?_⟩
  · unfold deployAccountName
    by_cases hlive : request.EnvName = "live"
    · simp [hlive]
    · simp [hlive, hne]
  · intro hlive
    simp [deployAccountName, hlive]
  · simp [deployAccountName]
  · simp [deployAccountName]
  · simp [deployAccountName]
  · intro s2 hlist
    exact AddDeploy_not_found h request team responseEnv s s2 p session hcfg hp hp' hsess hlist

/-- C5 on the sample request (prefix `acme`, environment `aslive`): the name
is `acmedev`. -/
theorem deploy_account_name_by_environment_witness :
    sampleRequest.Config "account_prefix" = some (.str "acme") ∧
    sampleHandler.GetRootAccountSession sampleRequest.Env = .ok ⟨"root"⟩ ∧
    deployAccountName "acme" sampleRequest.EnvName = "acme" ++ "dev" :=
  ⟨rfl, rfl, (deploy_account_name_by_environment sampleHandler sampleRequest "acme" GoMap.empty
    St.init "acme" ⟨"root"⟩ rfl (by decide) (by decide) rfl).2.1 (by decide)⟩

/-- C7: account lookup. With `N` the account name looked up:
(1) when the listing delivers pages without an entry named `N`, then a page
whose first entry named `N` is `account`, the scan ends with
`accountID = account.Id`, without error, after requesting exactly those pages
(none after the one holding the entry); and when that id is not empty and the
role session name is available, `AssumeRole` is then called for that id;
(2) when every page request succeeds and no entry is named `N`, the call fails
with `account <%q of N> not found`;
(3) when a page request fails before any entry named `N` was listed, the call
returns exactly that error. -/
theorem account_lookup_first_match (h : Handler) (request : PrepareTerraformRequest)
    (team : String) (responseEnv : GoMap) (s : St) (p : String) (session : Session)
    (hcfg : request.Config "account_prefix" = some (.str p)) (hp : p ≠ "") (hp' : p ≠ "-")
    (hsess : h.GetRootAccountSession request.Env = .ok session) :
    (∀ (pre : List ListAccountsOutput) (before : List Account) (account : Account)
        (after : List Account) (rest : List (Except GoError ListAccountsOutput)),
      h.ListAccounts session = pre.map Except.ok ++ .ok ⟨before ++ account :: after⟩ :: rest →
      (∀ page ∈ pre, ∀ x ∈ page.Accounts, x.Name ≠ deployAccountName p request.EnvName) →
      (∀ x ∈ before, x.Name ≠ deployAccountName p request.EnvName) →
      account.Name = deployAccountName p request.EnvName →
      ListAccountsPages (accountsCallback (deployAccountName p request.EnvName))
          (h.ListAccounts session) ""
          (s.beforeListing h team (deployAccountName p request.EnvName))
        = ((account.Id, none),
            { ErrorStream := (s.beforeListing h team (deployAccountName p request.EnvName)).ErrorStream,
              calls := (s.beforeListing h team (deployAccountName p request.EnvName)).calls ++
                List.replicate (pre.length + 1) Event.ListAccounts }) ∧
      (account.Id ≠ "" → ∀ roleSessionName,
        h.GetRoleSessionName request.Env = .ok roleSessionName →
        (h.AddDeployAccountCredentialsValue request team responseEnv s).2.calls
          = s.calls ++ [Event.GetRootAccountSession] ++
              List.replicate (pre.length + 1) Event.ListAccounts ++
              [Event.AssumeRole ⟨"arn:aws:iam::" ++ account.Id ++ ":role/" ++ (team ++ "-deploy"),
                roleSessionName⟩])) ∧
    (∀ (pages : List ListAccountsOutput),
      h.ListAccounts session = pages.map Except.ok →
      (∀ page ∈ pages, ∀ x ∈ page.Accounts, x.Name ≠ deployAccountName p request.EnvName) →
      (h.AddDeployAccountCredentialsValue request team responseEnv s).1
        = (some (.New ("account " ++ h.quote (deployAccountName p request.EnvName) ++
            " not found")), responseEnv)) ∧
    (∀ (pre : List ListAccountsOutput) (err : GoError)
        (rest : List (Except GoError ListAccountsOutput)),
      h.ListAccounts session = pre.map Except.ok ++ .error err :: rest →
      (∀ page ∈ pre, ∀ x ∈ page.Accounts, x.Name ≠ deployAccountName p request.EnvName) →
      (h.AddDeployAccountCredentialsValue request team responseEnv s).1
        = (some err, responseEnv)) := by
  refine ⟨?_, ?_, ?_⟩
  · intro pre before account after rest hpages hpre hbefore hname
    have hscan : ListAccountsPages (accountsCallback (deployAccountName p request.EnvName))
        (h.ListAccounts session) ""
        (s.beforeListing h team (deployAccountName p request.EnvName))
        = ((account.Id, none),
            { ErrorStream := (s.beforeListing h team (deployAccountName p request.EnvName)).ErrorStream,
              calls := (s.beforeListing h team (deployAccountName p request.EnvName)).calls ++
                List.replicate (pre.length + 1) Event.ListAccounts }) := by
      rw [hpages, ListAccountsPages_skip _ pre _ _ _ hpre]
      simp [ListAccountsPages, accountsCallback,
        scanAccounts_first_match _ before account after "" hbefore hname, St.call,
        List.replicate_succ']
    refine ⟨hscan, ?_⟩
    intro hid roleSessionName hrole
    rw [AddDeploy_found h request team responseEnv s _ p account.Id roleSessionName session
      hcfg hp hp' hsess hscan hid hrole]
    cases h.AssumeRole session _ <;>
      simp [St.call, St.beforeListing, St.Fprintf]
  · intro pages hpages hno
    have hscan := ListAccountsPages_skip (deployAccountName p request.EnvName) pages [] ""
      (s.beforeListing h team (deployAccountName p request.EnvName)) hno
    rw [List.append_nil, ← hpages] at hscan
    simp only [ListAccountsPages] at hscan
    rw [AddDeploy_not_found h request team responseEnv s _ p session hcfg hp hp' hsess hscan]
  · intro pre err rest hpages hno
    have hscan := ListAccountsPages_skip (deployAccountName p request.EnvName) pre
      (.error err :: rest) ""
      (s.beforeListing h team (deployAccountName p request.EnvName)) hno
    rw [← hpages] at hscan
    simp only [ListAccountsPages] at hscan
    rw [AddDeploy_listing_error h request team responseEnv s _ p "" session err
      hcfg hp hp' hsess hscan]

/-- C7 on the sample handler: `acmedev` is first listed as the first entry of
the second page; its id is resolved, two pages are requested, and the third
page is not. -/
theorem account_lookup_first_match_witness :
    sampleRequest.Config "account_prefix" = some (.str "acme") ∧
    sampleHandler.GetRootAccountSession sampleRequest.Env = .ok ⟨"root"⟩ ∧
    (sampleHandler.AddDeployAccountCredentialsValue sampleRequest "acme" GoMap.empty
        St.init).2.calls
      = St.init.calls ++ [Event.GetRootAccountSession] ++
          List.replicate (1 + 1) Event.ListAccounts ++
          [Event.AssumeRole ⟨"arn:aws:iam::" ++ "222222222222" ++ ":role/" ++
            ("acme" ++ "-deploy"), "user@example.com"⟩] :=
  ⟨rfl, rfl, ((account_lookup_first_match sampleHandler sampleRequest "acme" GoMap.empty St.init
    "acme" ⟨"root"⟩ rfl (by decide) (by decide) rfl).1
      [⟨[⟨"acmeprod", "111111111111"⟩, ⟨"otherdev", "333333333333"⟩]⟩] []
      ⟨"acmedev", "222222222222"⟩ [⟨"acmedev", "444444444444"⟩]
      [.ok ⟨[⟨"lastdev", "555555555555"⟩]⟩] rfl (by decide) (by decide) rfl).2
      (by decide) "user@example.com" rfl⟩

/-- C6 (as stated, refuted): on the sample handler and request the role
identifier passed to `AssumeRole` is `arn:aws:iam::222222222222:role/acme-deploy`,
not `arn:cloud:iam::222222222222:role/acme-deploy`. -/
theorem assume_role_arn_is_not_cloud :
    (sampleHandler.AddDeployAccountCredentialsValue sampleRequest "acme" GoMap.empty
        St.init).2.calls
      = [Event.GetRootAccountSession, Event.ListAccounts, Event.ListAccounts,
          Event.AssumeRole ⟨"arn:aws:iam::222222222222:role/acme-deploy", "user@example.com"⟩] ∧
    Event.AssumeRole ⟨"arn:cloud:iam::" ++ "222222222222" ++ ":role/" ++ "acme" ++ "-deploy",
        "user@example.com"⟩ ∉
      (sampleHandler.AddDeployAccountCredentialsValue sampleRequest "acme" GoMap.empty
        St.init).2.calls := by
  decide

/-- C6 (amended): for every team and every resolved, non-empty account id, the
`AssumeRole` call made after the account listing carries the role identifier
`arn:aws:iam::` + accountId + `:role/` + team + `-deploy` and, as session name,
the value `GetRoleSessionName` returned for the request's environment. -/
theorem assume_role_input_shape (h : Handler) (request : PrepareTerraformRequest)
    (team : String) (responseEnv : GoMap) (s s2 : St) (p accountID roleSessionName : String)
    (session : Session)
    (hcfg : request.Config "account_prefix" = some (.str p)) (hp : p ≠ "") (hp' : p ≠ "-")
    (hsess : h.GetRootAccountSession request.Env = .ok session)
    (hlist : ListAccountsPages (accountsCallback (deployAccountName p request.EnvName))
      (h.ListAccounts session) ""
      (s.beforeListing h team (deployAccountName p request.EnvName))
        = ((accountID, none), s2))
    (hid : accountID ≠ "")
    (hname : h.GetRoleSessionName request.Env = .ok roleSessionName) :
    (h.AddDeployAccountCredentialsValue request team responseEnv s).2.calls
      = s2.calls ++ [Event.AssumeRole
          { RoleArn := "arn:aws:iam::" ++ accountID ++ ":role/" ++ team ++ "-deploy",
            RoleSessionName := roleSessionName }] := by
  rw [AddDeploy_found h request team responseEnv s s2 p accountID roleSessionName session
    hcfg hp hp' hsess hlist hid hname]
  cases h.AssumeRole session _ <;> simp [St.call, String.append_assoc]

/-- C6 (amended) on the sample handler and request. -/
theorem assume_role_input_shape_witness :
    sampleRequest.Config "account_prefix" = some (.str "acme") ∧
    sampleHandler.GetRoleSessionName sampleRequest.Env = .ok "user@example.com" ∧
    (sampleHandler.AddDeployAccountCredentialsValue sampleRequest "acme" GoMap.empty
        St.init).2.calls
      = [Event.GetRootAccountSession, Event.ListAccounts, Event.ListAccounts] ++
        [Event.AssumeRole
          { RoleArn := "arn:aws:iam::" ++ "222222222222" ++ ":role/" ++ "acme" ++ "-deploy",
            RoleSessionName := "user@example.com" }] :=
  ⟨rfl, rfl, assume_role_input_shape sampleHandler sampleRequest "acme" GoMap.empty St.init
    ⟨"- Assuming \"acme-deploy\" role in \"acmedev\" account...\n",
      [Event.GetRootAccountSession, Event.ListAccounts, Event.ListAccounts]⟩
    "acme" "222222222222" "user@example.com" ⟨"root"⟩ rfl (by decide) (by decide) rfl
    (by decide) (by decide) rfl⟩

/-- C8: with the sentinel account prefix `-` and non-empty `AWS_ACCESS_KEY_ID`
and `AWS_SECRET_ACCESS_KEY` in the request environment, the call succeeds,
makes no call at all (no session, no account listing, no `AssumeRole`) and
writes nothing; the response environment holds the request environment's values
for `AWS_ACCESS_KEY_ID`, `AWS_SECRET_ACCESS_KEY` and `AWS_SESSION_TOKEN`, and
every key other than these three and `AWS_DEFAULT_REGION` is as before. -/
theorem sentinel_forwards_ambient_credentials (h : Handler)
    (request : PrepareTerraformRequest) (team : String) (responseEnv : GoMap) (s : St)
    (hcfg : request.Config "account_prefix" = some (.str "-"))
    (hkey : request.Env.get "AWS_ACCESS_KEY_ID" ≠ "")
    (hsecret : request.Env.get "AWS_SECRET_ACCESS_KEY" ≠ "") :
    (h.AddDeployAccountCredentialsValue request team responseEnv s).1.1 = none ∧
    (h.AddDeployAccountCredentialsValue request team responseEnv s).2 = s ∧
    (∀ k ∈ ["AWS_ACCESS_KEY_ID", "AWS_SECRET_ACCESS_KEY", "AWS_SESSION_TOKEN"],
      (h.AddDeployAccountCredentialsValue request team responseEnv s).1.2 k
        = some (request.Env.get k) ∧
      GoMap.get (h.AddDeployAccountCredentialsValue request team responseEnv s).1.2 k
        = request.Env.get k) ∧
    (∀ k, k ∉ ["AWS_ACCESS_KEY_ID", "AWS_SECRET_ACCESS_KEY", "AWS_SESSION_TOKEN",
        "AWS_DEFAULT_REGION"] →
      (h.AddDeployAccountCredentialsValue request team responseEnv s).1.2 k = responseEnv k) := by
  have hrun : h.AddDeployAccountCredentialsValue request team responseEnv s
      = ((none, (((responseEnv.set "AWS_ACCESS_KEY_ID" (request.Env.get "AWS_ACCESS_KEY_ID")).set
          "AWS_SECRET_ACCESS_KEY" (request.Env.get "AWS_SECRET_ACCESS_KEY")).set
          "AWS_SESSION_TOKEN" (request.Env.get "AWS_SESSION_TOKEN")).set
          "AWS_DEFAULT_REGION" h.Region), s) := by
    simp [Handler.AddDeployAccountCredentialsValue, assertString, hcfg,
      Handler.addRootAccountCredentials, hkey, hsecret]
  rw [hrun]
  refine ⟨rfl, rfl, ?_, ?_⟩
  · intro k hk
    simp only [List.mem_cons, List.mem_singleton, List.not_mem_nil, or_false] at hk
    rcases hk with rfl | rfl | rfl <;> simp [GoMap.set, GoMap.get]
  · intro k hk
    simp only [List.mem_cons, List.mem_singleton, List.not_mem_nil, or_false, not_or] at hk
    simp [GoMap.set, hk.1, hk.2.1, hk.2.2.1, hk.2.2.2]

/-- C8 on the sample handler with the sentinel request: the root access key is
forwarded and no call is made. -/
theorem sentinel_forwards_ambient_credentials_witness :
    requestWithSentinel.Config "account_prefix" = some (.str "-") ∧
    requestWithSentinel.Env.get "AWS_ACCESS_KEY_ID" ≠ "" ∧
    requestWithSentinel.Env.get "AWS_SECRET_ACCESS_KEY" ≠ "" ∧
    (sampleHandler.AddDeployAccountCredentialsValue requestWithSentinel "acme" GoMap.empty
      St.init).2 = St.init :=
  ⟨rfl, by decide, by decide,
    (sentinel_forwards_ambient_credentials sampleHandler requestWithSentinel "acme" GoMap.empty
      St.init rfl (by decide) (by decide)).2.1⟩

/-! ## `PrepareTerraform` -/

/-- Once the team and the release-account credentials are there, the response
carries the `s3` backend and the backend configuration, whatever happens next. -/
theorem PrepareTerraform_backend (h : Handler) (request : PrepareTerraformRequest)
    (response : PrepareTerraformResponse) (releaseDir : String) (s : St)
    (team : String) (creds : Credentials) (value : CredentialsValue)
    (hteam : h.getTeam (request.Config "team") = .ok team)
    (hinit : h.InitReleaseAccountCredentials request.Env team = .ok creds)
    (hget : creds.Get = .ok value) :
    (h.PrepareTerraform request response releaseDir s).1.2.TerraformBackendType = "s3" ∧
    (h.PrepareTerraform request response releaseDir s).1.2.TerraformBackendConfig
      = backendConfig h response.TerraformBackendConfig value team request.Component := by
  simp only [Handler.PrepareTerraform, hteam, hinit, hget, backendConfig]
  repeat' split
  all_goals exact ⟨rfl, rfl⟩

/-- `PrepareTerraform` from the call of `AddDeployAccountCredentialsValue` on,
when every earlier step succeeded. -/
theorem PrepareTerraform_at_deploy (h : Handler) (request : PrepareTerraformRequest)
    (response : PrepareTerraformResponse) (releaseDir : String) (s : St)
    (team : String) (creds : Credentials) (value : CredentialsValue) (session : Session)
    (body : ReadCloser)
    (hteam : h.getTeam (request.Config "team") = .ok team)
    (hinit : h.InitReleaseAccountCredentials request.Env team = .ok creds)
    (hget : creds.Get = .ok value)
    (hsession : h.createReleaseAccountSession creds = .ok session)
    (hobj : h.S3GetObject session h.ReleaseBucket
      (h.releaseS3Key team request.Component request.Version) = .ok body) :
    h.PrepareTerraform request response releaseDir s
      = match h.AddDeployAccountCredentialsValue request team response.Env
          (s.beforeDeploy h team request) with
        | ((some err, responseEnv), s1) =>
          ((none, { response with
              Success := false, Env := responseEnv, TerraformBackendType := "s3",
              TerraformBackendConfig :=
                backendConfig h response.TerraformBackendConfig value team request.Component }),
            s1.Fprintln err)
        | ((none, responseEnv), s1) =>
          match h.Load body request.Component request.Version releaseDir
              (h.resolvePlugin session team) s1 with
          | (.error err, s2) =>
            ((some err, { response with
                Env := responseEnv, TerraformBackendType := "s3",
                TerraformBackendConfig :=
                  backendConfig h response.TerraformBackendConfig value team request.Component }),
              s2)
          | (.ok terraformImage, s2) =>
            ((none, { response with
                TerraformImage := terraformImage, Env := responseEnv,
                TerraformBackendType := "s3",
                TerraformBackendConfig :=
                  backendConfig h response.TerraformBackendConfig value team request.Component }),
              s2) := by
  simp only [Handler.PrepareTerraform, hteam, hinit, hget, hsession, Handler.s3ClientGetObject,
    hobj, backendConfig, St.beforeDeploy]

/-- C9: when the team is valid and the release-account credentials are
obtained, the response has backend type `s3` and, starting from an empty
backend configuration, exactly the eight keys `access_key`, `secret_key`,
`token`, `region`, `bucket`, `workspace_key_prefix`, `key`, `dynamodb_table`,
with the credential's three fields, `Region`, `TFStateBucket`,
team + `/` + component, `terraform.tfstate` and team + `-tflocks`. -/
theorem backend_config_eight_keys (h : Handler) (request : PrepareTerraformRequest)
    (response : PrepareTerraformResponse) (releaseDir : String) (s : St)
    (team : String) (creds : Credentials) (value : CredentialsValue)
    (hteam : h.getTeam (request.Config "team") = .ok team)
    (hinit : h.InitReleaseAccountCredentials request.Env team = .ok creds)
    (hget : creds.Get = .ok value)
    (hempty : response.TerraformBackendConfig = GoMap.empty) :
    (h.PrepareTerraform request response releaseDir s).1.2.TerraformBackendType = "s3" ∧
    (∀ k, ((h.PrepareTerraform request response releaseDir s).1.2.TerraformBackendConfig k).isSome
        = true ↔
      k ∈ ["access_key", "secret_key", "token", "region", "bucket", "workspace_key_prefix",
        "key", "dynamodb_table"]) ∧
    (h.PrepareTerraform request response releaseDir s).1.2.TerraformBackendConfig "access_key"
      = some value.AccessKeyID ∧
    (h.PrepareTerraform request response releaseDir s).1.2.TerraformBackendConfig "secret_key"
      = some value.SecretAccessKey ∧
    (h.PrepareTerraform request response releaseDir s).1.2.TerraformBackendConfig "token"
      = some value.SessionToken ∧
    (h.PrepareTerraform request response releaseDir s).1.2.TerraformBackendConfig "region"
      = some h.Region ∧
    (h.PrepareTerraform request response releaseDir s).1.2.TerraformBackendConfig "bucket"
      = some h.TFStateBucket ∧
    (h.PrepareTerraform request response releaseDir s).1.2.TerraformBackendConfig
      "workspace_key_prefix" = some (team ++ "/" ++ request.Component) ∧
    (h.PrepareTerraform request response releaseDir s).1.2.TerraformBackendConfig "key"
      = some "terraform.tfstate" ∧
    (h.PrepareTerraform request response releaseDir s).1.2.TerraformBackendConfig "dynamodb_table"
      = some (team ++ "-tflocks") := by
  obtain ⟨htype, hcfg⟩ :=
    PrepareTerraform_backend h request response releaseDir s team creds value hteam hinit hget
  rw [hcfg, hempty]
  refine ⟨htype, ?_, ?_, ?_, ?_, ?_, ?_, ?_, ?_, ?_⟩
  · intro k
    simp only [backendConfig, GoMap.set, GoMap.empty]
    split_ifs <;> simp_all
  all_goals simp [backendConfig, GoMap.set]

/-- C9 on the sample handler, request and response. -/
theorem backend_config_eight_keys_witness :
    sampleHandler.getTeam (sampleRequest.Config "team") = .ok "acme" ∧
    sampleResponse.TerraformBackendConfig = GoMap.empty ∧
    (sampleHandler.PrepareTerraform sampleRequest sampleResponse "/release"
      St.init).1.2.TerraformBackendConfig "workspace_key_prefix" = some ("acme" ++ "/" ++ "web") :=
  ⟨rfl, rfl, (backend_config_eight_keys sampleHandler sampleRequest sampleResponse "/release"
    St.init "acme" ⟨.ok ⟨"ASIARELEASE", "release-secret", "release-token"⟩⟩
    ⟨"ASIARELEASE", "release-secret", "release-token"⟩ rfl rfl rfl rfl).2.2.2.2.2.2.2.1⟩

/-- C3 (as stated, refuted): on the sample request, with a delegation call that
fails with message `test-error-text`, the error surfaced has the message
`test-error-text`, not `Unable to assume role: test-error-text`, and the last
line `PrepareTerraform` writes is `test-error-text`. -/
theorem assume_role_failure_is_not_wrapped :
    (rejectedAssumeRoleHandler.AddDeployAccountCredentialsValue sampleRequest "acme"
      GoMap.empty St.init).1.1 = some (.New "test-error-text") ∧
    (GoError.New "test-error-text").Error ≠ "Unable to assume role: " ++ "test-error-text" ∧
    (rejectedAssumeRoleHandler.PrepareTerraform sampleRequest sampleResponse "/release"
      St.init).2.ErrorStream
      = "- Downloading release from s3://acuris-releases/acme/web/web-1.zip...\n" ++
        "- Assuming \"acme-deploy\" role in \"acurisrelease\" account...\n" ++
        "- Assuming \"acme-deploy\" role in \"acmedev\" account...\n" ++
        "test-error-text\n" := by
  decide

/-- C3 (amended): for a non-sentinel account prefix, when the `AssumeRole` call
made by `AddDeployAccountCredentialsValue` fails with `err`, the error returned
to the caller is `err` itself and the response environment is untouched;
`PrepareTerraform` then reports failure with the line `err.Error()` + newline;
exactly one `AssumeRole` call was made. -/
theorem assume_role_failure_surfaces_unchanged (h : Handler)
    (request : PrepareTerraformRequest) (response : PrepareTerraformResponse)
    (releaseDir : String) (s s2 : St) (team : String) (creds : Credentials)
    (value : CredentialsValue) (releaseSession : Session) (body : ReadCloser)
    (p accountID roleSessionName : String) (session : Session) (err : GoError)
    (hteam : h.getTeam (request.Config "team") = .ok team)
    (hinit : h.InitReleaseAccountCredentials request.Env team = .ok creds)
    (hget : creds.Get = .ok value)
    (hsession : h.createReleaseAccountSession creds = .ok releaseSession)
    (hobj : h.S3GetObject releaseSession h.ReleaseBucket
      (h.releaseS3Key team request.Component request.Version) = .ok body)
    (hcfg : request.Config "account_prefix" = some (.str p)) (hp : p ≠ "") (hp' : p ≠ "-")
    (hsess : h.GetRootAccountSession request.Env = .ok session)
    (hlist : ListAccountsPages (accountsCallback (deployAccountName p request.EnvName))
      (h.ListAccounts session) ""
      ((s.beforeDeploy h team request).beforeListing h team
        (deployAccountName p request.EnvName))
        = ((accountID, none), s2))
    (hid : accountID ≠ "")
    (hname : h.GetRoleSessionName request.Env = .ok roleSessionName)
    (hassume : h.AssumeRole session
      ⟨"arn:aws:iam::" ++ accountID ++ ":role/" ++ (team ++ "-deploy"), roleSessionName⟩
        = .error err) :
    h.AddDeployAccountCredentialsValue request team response.Env (s.beforeDeploy h team request)
      = ((some err, response.Env),
          s2.call (.AssumeRole
            ⟨"arn:aws:iam::" ++ accountID ++ ":role/" ++ (team ++ "-deploy"), roleSessionName⟩)) ∧
    (h.PrepareTerraform request response releaseDir s).1.1 = none ∧
    (h.PrepareTerraform request response releaseDir s).1.2.Success = false ∧
    (h.PrepareTerraform request response releaseDir s).2.ErrorStream
      = s2.ErrorStream ++ (err.Error ++ "\n") ∧
    (∃ k, (h.PrepareTerraform request response releaseDir s).2.calls
      = (s.beforeDeploy h team request).calls ++ [Event.GetRootAccountSession] ++
          List.replicate k Event.ListAccounts ++
          [Event.AssumeRole
            ⟨"arn:aws:iam::" ++ accountID ++ ":role/" ++ (team ++ "-deploy"),
              roleSessionName⟩]) := by
  have hdeploy := AddDeploy_found h request team response.Env (s.beforeDeploy h team request) s2
    p accountID roleSessionName session hcfg hp hp' hsess hlist hid hname
  rw [hassume] at hdeploy
  have hrun := PrepareTerraform_at_deploy h request response releaseDir s team creds value
    releaseSession body hteam hinit hget hsession hobj
  rw [hdeploy] at hrun
  obtain ⟨k, _, hk⟩ := ListAccountsPages_effects
    (accountsCallback (deployAccountName p request.EnvName)) (h.ListAccounts session) ""
    ((s.beforeDeploy h team request).beforeListing h team (deployAccountName p request.EnvName))
  rw [hlist] at hk
  refine ⟨hdeploy, ?_, ?_, ?_, k, ?_⟩
  · rw [hrun]
  · rw [hrun]
  · rw [hrun]
    simp [St.Fprintln, St.Fprintf, St.call]
  · rw [hrun]
    simp only at hk
    simp [St.Fprintln, St.Fprintf, St.call, hk, St.beforeListing]

/-- C3 (amended) on the sample request with the rejected delegation call. -/
theorem assume_role_failure_surfaces_unchanged_witness :
    rejectedAssumeRoleHandler.getTeam (sampleRequest.Config "team") = .ok "acme" ∧
    sampleRequest.Config "account_prefix" = some (.str "acme") ∧
    rejectedAssumeRoleHandler.AssumeRole ⟨"root"⟩
      ⟨"arn:aws:iam::" ++ "222222222222" ++ ":role/" ++ ("acme" ++ "-deploy"),
        "user@example.com"⟩ = .error (.New "test-error-text") ∧
    (rejectedAssumeRoleHandler.PrepareTerraform sampleRequest sampleResponse "/release"
      St.init).1.2.Success = false :=
  ⟨rfl, rfl, rfl,
    (assume_role_failure_surfaces_unchanged rejectedAssumeRoleHandler sampleRequest
      sampleResponse "/release" St.init
      ⟨"- Downloading release from s3://acuris-releases/acme/web/web-1.zip...\n" ++
        "- Assuming \"acme-deploy\" role in \"acurisrelease\" account...\n" ++
        "- Assuming \"acme-deploy\" role in \"acmedev\" account...\n",
        [Event.InitReleaseAccountCredentials "acme", Event.ReleaseAccountCredentialsGet,
          Event.createReleaseAccountSession,
          Event.S3GetObject "acuris-releases" "acme/web/web-1.zip",
          Event.GetRootAccountSession, Event.ListAccounts, Event.ListAccounts]⟩
      "acme" ⟨.ok ⟨"ASIARELEASE", "release-secret", "release-token"⟩⟩
      ⟨"ASIARELEASE", "release-secret", "release-token"⟩ ⟨"release"⟩
      ⟨"s3://acuris-releases/acme/web/web-1.zip"⟩ "acme" "222222222222" "user@example.com"
      ⟨"root"⟩ (.New "test-error-text") rfl rfl rfl rfl rfl rfl (by decide) (by decide) rfl
      (by decide) (by decide) rfl rfl).2.2.1⟩

/-- C4 (as stated, refuted): on the sample request without `account_prefix`,
`PrepareTerraform` has initialised and read the release-account credentials,
created the release-account session and issued the S3 `GetObject` of the
release before the configuration error is written. -/
theorem release_fetched_before_account_prefix_error :
    (sampleHandler.PrepareTerraform requestWithoutAccountPrefix sampleResponse "/release"
      St.init).2
      = { ErrorStream :=
            "- Downloading release from s3://acuris-releases/acme/web/web-1.zip...\n" ++
            "- Assuming \"acme-deploy\" role in \"acurisrelease\" account...\n" ++
            "cdflow.yaml: error - config.params.account_prefix must be set and be a string value\n",
          calls := [Event.InitReleaseAccountCredentials "acme",
            Event.ReleaseAccountCredentialsGet, Event.createReleaseAccountSession,
            Event.S3GetObject "acuris-releases" "acme/web/web-1.zip"] } := by
  decide

/-- C4 (amended): when `account_prefix` is missing or not a string,
`AddDeployAccountCredentialsValue` returns the configuration error without
making a call or writing anything; and when the steps of `PrepareTerraform`
before it succeed, the invocation reports failure (success flag false, nil
error) with that error as its last line, after exactly four calls: credential
initialisation, credential retrieval, release-account session creation, and one
S3 `GetObject` of the release; no root session, account listing or `AssumeRole`
call is made. -/
theorem missing_account_prefix_fails_after_release_fetch (h : Handler)
    (request : PrepareTerraformRequest) (response : PrepareTerraformResponse)
    (releaseDir : String) (s : St) (team : String) (creds : Credentials)
    (value : CredentialsValue) (releaseSession : Session) (body : ReadCloser)
    (hteam : h.getTeam (request.Config "team") = .ok team)
    (hinit : h.InitReleaseAccountCredentials request.Env team = .ok creds)
    (hget : creds.Get = .ok value)
    (hsession : h.createReleaseAccountSession creds = .ok releaseSession)
    (hobj : h.S3GetObject releaseSession h.ReleaseBucket
      (h.releaseS3Key team request.Component request.Version) = .ok body)
    (hcfg : ∀ v, request.Config "account_prefix" ≠ some (.str v)) :
    (∀ team1 responseEnv s1,
      h.AddDeployAccountCredentialsValue request team1 responseEnv s1
        = ((some (.New ("cdflow.yaml: error - config.params.account_prefix must be set " ++
            "and be a string value")), responseEnv), s1)) ∧
    (h.PrepareTerraform request response releaseDir s).1.1 = none ∧
    (h.PrepareTerraform request response releaseDir s).1.2.Success = false ∧
    (h.PrepareTerraform request response releaseDir s).2.ErrorStream
      = s.ErrorStream ++
        ("- Downloading release from s3://" ++ h.ReleaseBucket ++ "/" ++
          h.releaseS3Key team request.Component request.Version ++ "...\n") ++
        ("- Assuming \"" ++ team ++ "-deploy\" role in \"acurisrelease\" " ++ "account...\n") ++
        ("cdflow.yaml: error - config.params.account_prefix must be set " ++
          "and be a string value" ++ "\n") ∧
    (h.PrepareTerraform request response releaseDir s).2.calls
      = s.calls ++ [Event.InitReleaseAccountCredentials team,
          Event.ReleaseAccountCredentialsGet, Event.createReleaseAccountSession,
          Event.S3GetObject h.ReleaseBucket
            (h.releaseS3Key team request.Component request.Version)] := by
  have hok : (assertString (request.Config "account_prefix")).2 = false := by
    cases hc : request.Config "account_prefix" with
    | none => rfl
    | some v =>
      cases v with
      | str v => exact absurd hc (hcfg v)
      | int n => rfl
      | bool b => rfl
      | list xs => rfl
  have hdeploy : ∀ team1 responseEnv s1,
      h.AddDeployAccountCredentialsValue request team1 responseEnv s1
        = ((some (.New ("cdflow.yaml: error - config.params.account_prefix must be set " ++
            "and be a string value")), responseEnv), s1) := by
    intro team1 responseEnv s1
    rcases hpair : assertString (request.Config "account_prefix") with ⟨accountPrefix, ok⟩
    rw [hpair] at hok
    simp only at hok
    subst hok
    simp [Handler.AddDeployAccountCredentialsValue, hpair]
  have hrun := PrepareTerraform_at_deploy h request response releaseDir s team creds value
    releaseSession body hteam hinit hget hsession hobj
  rw [hdeploy] at hrun
  refine ⟨hdeploy, ?_, ?_, ?_, ?_⟩
  · rw [hrun]
  · rw [hrun]
  · rw [hrun]
    simp [St.Fprintln, St.Fprintf, St.call, St.beforeDeploy, GoError.Error, String.append_assoc]
  · rw [hrun]
    simp [St.Fprintln, St.Fprintf, St.call, St.beforeDeploy]

/-- C4 (amended) on the sample request without `account_prefix`. -/
theorem missing_account_prefix_fails_after_release_fetch_witness :
    sampleHandler.getTeam (requestWithoutAccountPrefix.Config "team") = .ok "acme" ∧
    (∀ v, requestWithoutAccountPrefix.Config "account_prefix" ≠ some (.str v)) ∧
    (sampleHandler.PrepareTerraform requestWithoutAccountPrefix sampleResponse "/release"
      St.init).2.calls
      = St.init.calls ++ [Event.InitReleaseAccountCredentials "acme",
          Event.ReleaseAccountCredentialsGet, Event.createReleaseAccountSession,
          Event.S3GetObject sampleHandler.ReleaseBucket
            (sampleHandler.releaseS3Key "acme" requestWithoutAccountPrefix.Component
              requestWithoutAccountPrefix.Version)] :=
  ⟨rfl, fun _ hv => Option.noConfusion hv,
    (missing_account_prefix_fails_after_release_fetch sampleHandler requestWithoutAccountPrefix
      sampleResponse "/release" St.init "acme"
      ⟨.ok ⟨"ASIARELEASE", "release-secret", "release-token"⟩⟩
      ⟨"ASIARELEASE", "release-secret", "release-token"⟩ ⟨"release"⟩
      ⟨"s3://acuris-releases/acme/web/web-1.zip"⟩ rfl rfl rfl rfl rfl
      (fun _ hv => Option.noConfusion hv)).2.2.2.2⟩

/-- C10 (as stated, refuted): when the release-account session cannot be
created, `PrepareTerraform` returns the error
`unable to create AWS session in release account: missing region`, leaves the
success flag as it was (true) and writes nothing to the error stream. -/
theorem session_failure_is_returned_as_error :
    (noReleaseSessionHandler.PrepareTerraform sampleRequest sampleResponse "/release"
      St.init).1.1
      = some (.New "unable to create AWS session in release account: missing region") ∧
    (noReleaseSessionHandler.PrepareTerraform sampleRequest sampleResponse "/release"
      St.init).1.2.Success = true ∧
    (noReleaseSessionHandler.PrepareTerraform sampleRequest sampleResponse "/release"
      St.init).2.ErrorStream = "" := by
  decide

/-- C10 (amended): a failure of team validation (1), of release-account
credential initialisation (2) or retrieval (3), of the release object fetch (5)
or of deploy-account credential resolution (6) makes `PrepareTerraform` set the
success flag to false, append the error and a newline to the error stream, and
return a nil error. A failure of release-account session creation (4) is
returned as the error `unable to create AWS session in release account: ` +
cause, and a failure of release loading or plugin resolution (7) is returned as
the loader's error; in both cases the success flag is left as it was and no
line is written for the failure. -/
theorem failure_reporting_by_step (h : Handler) (request : PrepareTerraformRequest)
    (response : PrepareTerraformResponse) (releaseDir : String) (s : St) :
    (∀ err, h.getTeam (request.Config "team") = .error err →
      (h.PrepareTerraform request response releaseDir s).1.1 = none ∧
      (h.PrepareTerraform request response releaseDir s).1.2.Success = false ∧
      (h.PrepareTerraform request response releaseDir s).2.ErrorStream
        = s.ErrorStream ++ (err.Error ++ "\n")) ∧
    (∀ team err, h.getTeam (request.Config "team") = .ok team →
      h.InitReleaseAccountCredentials request.Env team = .error err →
      (h.PrepareTerraform request response releaseDir s).1.1 = none ∧
      (h.PrepareTerraform request response releaseDir s).1.2.Success = false ∧
      (h.PrepareTerraform request response releaseDir s).2.ErrorStream
        = s.ErrorStream ++ (err.Error ++ "\n")) ∧
    (∀ team creds err, h.getTeam (request.Config "team") = .ok team →
      h.InitReleaseAccountCredentials request.Env team = .ok creds →
      creds.Get = .error err →
      (h.PrepareTerraform request response releaseDir s).1.1 = none ∧
      (h.PrepareTerraform request response releaseDir s).1.2.Success = false ∧
      (h.PrepareTerraform request response releaseDir s).2.ErrorStream
        = s.ErrorStream ++ (err.Error ++ "\n")) ∧
    (∀ team creds value err, h.getTeam (request.Config "team") = .ok team →
      h.InitReleaseAccountCredentials request.Env team = .ok creds →
      creds.Get = .ok value →
      h.createReleaseAccountSession creds = .error err →
      (h.PrepareTerraform request response releaseDir s).1.1
        = some (.New ("unable to create AWS session in release account: " ++ err.Error)) ∧
      (h.PrepareTerraform request response releaseDir s).1.2.Success = response.Success ∧
      (h.PrepareTerraform request response releaseDir s).2.ErrorStream = s.ErrorStream) ∧
    (∀ team creds value session err, h.getTeam (request.Config "team") = .ok team →
      h.InitReleaseAccountCredentials request.Env team = .ok creds →
      creds.Get = .ok value →
      h.createReleaseAccountSession creds = .ok session →
      h.S3GetObject session h.ReleaseBucket
        (h.releaseS3Key team request.Component request.Version) = .error err →
      (h.PrepareTerraform request response releaseDir s).1.1 = none ∧
      (h.PrepareTerraform request response releaseDir s).1.2.Success = false ∧
      (h.PrepareTerraform request response releaseDir s).2.ErrorStream
        = s.ErrorStream ++
          ("- Downloading release from s3://" ++ h.ReleaseBucket ++ "/" ++
            h.releaseS3Key team request.Component request.Version ++ "...\n") ++
          (err.Error ++ "\n")) ∧
    (∀ team creds value session body err responseEnv s1,
      h.getTeam (request.Config "team") = .ok team →
      h.InitReleaseAccountCredentials request.Env team = .ok creds →
      creds.Get = .ok value →
      h.createReleaseAccountSession creds = .ok session →
      h.S3GetObject session h.ReleaseBucket
        (h.releaseS3Key team request.Component request.Version) = .ok body →
      h.AddDeployAccountCredentialsValue request team response.Env
        (s.beforeDeploy h team request) = ((some err, responseEnv), s1) →
      (h.PrepareTerraform request response releaseDir s).1.1 = none ∧
      (h.PrepareTerraform request response releaseDir s).1.2.Success = false ∧
      (h.PrepareTerraform request response releaseDir s).2.ErrorStream
        = s1.ErrorStream ++ (err.Error ++ "\n")) ∧
    (∀ team creds value session body err responseEnv s1 s2,
      h.getTeam (request.Config "team") = .ok team →
      h.InitReleaseAccountCredentials request.Env team = .ok creds →
      creds.Get = .ok value →
      h.createReleaseAccountSession creds = .ok session →
      h.S3GetObject session h.ReleaseBucket
        (h.releaseS3Key team request.Component request.Version) = .ok body →
      h.AddDeployAccountCredentialsValue request team response.Env
        (s.beforeDeploy h team request) = ((none, responseEnv), s1) →
      h.Load body request.Component request.Version releaseDir (h.resolvePlugin session team) s1
        = (.error err, s2) →
      (h.PrepareTerraform request response releaseDir s).1.1 = some err ∧
      (h.PrepareTerraform request response releaseDir s).1.2.Success = response.Success ∧
      (h.PrepareTerraform request response releaseDir s).2 = s2) := by
  refine ⟨?_, ?_, ?_, ?_, ?_, ?_, ?_⟩
  · intro err hteam
    simp [Handler.PrepareTerraform, hteam, St.Fprintln, St.Fprintf]
  · intro team err hteam hinit
    simp [Handler.PrepareTerraform, hteam, hinit, St.Fprintln, St.Fprintf, St.call]
  · intro team creds err hteam hinit hget
    simp [Handler.PrepareTerraform, hteam, hinit, hget, St.Fprintln, St.Fprintf, St.call]
  · intro team creds value err hteam hinit hget hsession
    simp [Handler.PrepareTerraform, hteam, hinit, hget, hsession, St.call]
  · intro team creds value session err hteam hinit hget hsession hobj
    simp [Handler.PrepareTerraform, hteam, hinit, hget, hsession, Handler.s3ClientGetObject,
      hobj, St.Fprintln, St.Fprintf, St.call]
  · intro team creds value session body err responseEnv s1 hteam hinit hget hsession hobj hdeploy
    have hrun := PrepareTerraform_at_deploy h request response releaseDir s team creds value
      session body hteam hinit hget hsession hobj
    rw [hdeploy] at hrun
    rw [hrun]
    simp [St.Fprintln, St.Fprintf]
  · intro team creds value session body err responseEnv s1 s2 hteam hinit hget hsession hobj
      hdeploy hload
    have hrun := PrepareTerraform_at_deploy h request response releaseDir s team creds value
      session body hteam hinit hget hsession hobj
    rw [hdeploy] at hrun
    simp only [hload] at hrun
    rw [hrun]
    exact ⟨rfl, rfl, rfl⟩

/-- C10 (amended) at three failures: a request without team on the sample
handler (reported on the stream), a release-account session that cannot be
created, and a release loader that fails (both returned as errors). -/
theorem failure_reporting_by_step_witness :
    ((sampleHandler.PrepareTerraform requestWithoutTeam sampleResponse "/release" St.init).1.1
        = none ∧
      (sampleHandler.PrepareTerraform requestWithoutTeam sampleResponse "/release"
        St.init).1.2.Success = false ∧
      (sampleHandler.PrepareTerraform requestWithoutTeam sampleResponse "/release"
        St.init).2.ErrorStream
        = St.init.ErrorStream ++
          ((GoError.New "cdflow.yaml: error - config.params.team must be set").Error ++ "\n")) ∧
    (noReleaseSessionHandler.PrepareTerraform sampleRequest sampleResponse "/release"
      St.init).1.2.Success = sampleResponse.Success ∧
    (failingLoadHandler.PrepareTerraform sampleRequest sampleResponse "/release" St.init).1.1
      = some (.New "not a zip archive") :=
  ⟨(failure_reporting_by_step sampleHandler requestWithoutTeam sampleResponse "/release"
      St.init).1 (.New "cdflow.yaml: error - config.params.team must be set") rfl,
    ((failure_reporting_by_step noReleaseSessionHandler sampleRequest sampleResponse "/release"
      St.init).2.2.2.1 "acme" ⟨.ok ⟨"ASIARELEASE", "release-secret", "release-token"⟩⟩
      ⟨"ASIARELEASE", "release-secret", "release-token"⟩ (.New "missing region")
      rfl rfl rfl rfl).2.1,
    ((failure_reporting_by_step failingLoadHandler sampleRequest sampleResponse "/release"
      St.init).2.2.2.2.2.2 "acme" ⟨.ok ⟨"ASIARELEASE", "release-secret", "release-token"⟩⟩
      ⟨"ASIARELEASE", "release-secret", "release-token"⟩ ⟨"release"⟩
      ⟨"s3://acuris-releases/acme/web/web-1.zip"⟩ (.New "not a zip archive")
      ((((GoMap.empty.set "AWS_ACCESS_KEY_ID" "ASIADEPLOY").set "AWS_SECRET_ACCESS_KEY"
        "deploy-secret").set "AWS_SESSION_TOKEN" "deploy-token").set "AWS_DEFAULT_REGION"
        "eu-west-1")
      ⟨"- Downloading release from s3://acuris-releases/acme/web/web-1.zip...\n" ++
        "- Assuming \"acme-deploy\" role in \"acurisrelease\" account...\n" ++
        "- Assuming \"acme-deploy\" role in \"acmedev\" account...\n",
        [Event.InitReleaseAccountCredentials "acme", Event.ReleaseAccountCredentialsGet,
          Event.createReleaseAccountSession,
          Event.S3GetObject "acuris-releases" "acme/web/web-1.zip",
          Event.GetRootAccountSession, Event.ListAccounts, Event.ListAccounts,
          Event.AssumeRole ⟨"arn:aws:iam::222222222222:role/acme-deploy", "user@example.com"⟩]⟩
      ⟨"- Downloading release from s3://acuris-releases/acme/web/web-1.zip...\n" ++
        "- Assuming \"acme-deploy\" role in \"acurisrelease\" account...\n" ++
        "- Assuming \"acme-deploy\" role in \"acmedev\" account...\n",
        [Event.InitReleaseAccountCredentials "acme", Event.ReleaseAccountCredentialsGet,
          Event.createReleaseAccountSession,
          Event.S3GetObject "acuris-releases" "acme/web/web-1.zip",
          Event.GetRootAccountSession, Event.ListAccounts, Event.ListAccounts,
          Event.AssumeRole ⟨"arn:aws:iam::222222222222:role/acme-deploy", "user@example.com"⟩]⟩
      rfl rfl rfl rfl rfl rfl rfl).1⟩

end CdflowAcuris
